import Mathlib

/-!
Shallow embedding of the OrenPay escrow platform's order/transaction core
(server/models/Order.ts, server/models/Transaction.ts, server/models/User.ts,
server/controllers/orderController.ts, server/controllers/adminController.ts,
server/services/mpesa.ts and its extended revision with the reversal
handlers).  Database rows are Lean structures, the relational store is a
record of lists, and each SQL statement of the source is mirrored by a pure
function on the store.  Webhook/result handlers become functions from the
store and the (already parsed) callback payload to the new store plus the
HTTP status they answer with; provider-initiation network calls, which are
asynchronous I/O in the source, are recorded in an explicit call trace and
their responses are passed in as arguments.
-/

namespace Orenpay

/-- Transaction.ts: `type TransactionStatus =
'pending' | 'success' | 'failed' | 'refunded' | 'processing' | 'skipped'`. -/
inductive TransactionStatus
  | pending
  | success
  | failed
  | refunded
  | processing
  | skipped
deriving DecidableEq, Repr

/-- Order.ts `type OrderStatus`, together with the two extra literals
(`processing_refund`, `refund_failed`) that adminController.ts and the
reversal handlers additionally write into the status column. -/
inductive OrderStatus
  | pending
  | paid
  | shipped
  | delivered
  | disputed
  | completed
  | cancelled
  | refunded
  | processing_payout
  | processing_refund
  | refund_failed
deriving DecidableEq, Repr

/-- A row of the `orders` relation (Order.ts, interface Order). -/
structure Order where
  id : Nat
  buyer_id : Nat
  seller_id : Nat
  item_description : String
  amount : Int
  status : OrderStatus
  payment_method : String
  proof_of_delivery_url : Option String
deriving DecidableEq, Repr

/-- A row of the `transactions` relation (Transaction.ts, interface Transaction). -/
structure Transaction where
  id : Nat
  order_id : Nat
  user_id : Nat
  provider : String
  provider_ref : Option String
  amount : Int
  status : TransactionStatus
  description : Option String
  provider_status_code : Option String
  provider_status_desc : Option String
  provider_transaction_id : Option String
deriving DecidableEq, Repr

/-- The slice of a `users` row the order/admin controllers read
(User.ts, interface User). -/
structure User where
  id : Nat
  email : String
  phone_number : Option String
  role : String
deriving DecidableEq, Repr

/-- The relational store: the three relations the reconciliation core
touches, plus the SERIAL counters of the two mutable tables. -/
structure DB where
  orders : List Order
  transactions : List Transaction
  users : List User
  nextOrderId : Nat
  nextTxId : Nat
deriving DecidableEq, Repr

/-- Order.ts `findOrderById`: `SELECT * FROM orders WHERE id = $1`. -/
def findOrderById (db : DB) (id : Nat) : Option Order :=
  db.orders.find? (fun o => o.id == id)

/-- User.ts `findUserById` (projection to the fields the controllers use). -/
def findUserById (db : DB) (id : Nat) : Option User :=
  db.users.find? (fun u => u.id == id)

/-- User.ts `findUserByEmailOrPhone`: matches on email or phone number. -/
def findUserByEmailOrPhone (db : DB) (identifier : String) : Option User :=
  db.users.find? (fun u => u.email == identifier || u.phone_number == some identifier)

/-- Transaction.ts `findTransactionByProviderRef`:
`SELECT * FROM transactions WHERE provider_ref = $1 AND provider = $2`. -/
def findTransactionByProviderRef (db : DB) (providerRef provider : String) :
    Option Transaction :=
  db.transactions.find? (fun t => t.provider_ref == some providerRef && t.provider == provider)

/-- Observer used to state post-conditions: the transaction row with a given id. -/
def txById (db : DB) (id : Nat) : Option Transaction :=
  db.transactions.find? (fun t => t.id == id)

/-- Order.ts `updateOrderStatus`: `UPDATE orders SET status = $1
[, proof_of_delivery_url = …] WHERE id = $2 RETURNING *`.  The proof URL is
attached only when the new status is `shipped` and a URL was supplied.
Note the `WHERE` clause tests only the row id: there is no predicate on the
current status. -/
def updateOrderStatus (db : DB) (id : Nat) (status : OrderStatus)
    (proofUrl : Option String) : DB × Option Order :=
  let upd := fun (o : Order) =>
    { o with
      status := status,
      proof_of_delivery_url :=
        if status == OrderStatus.shipped && proofUrl.isSome then proofUrl
        else o.proof_of_delivery_url }
  ( { db with orders := db.orders.map (fun o => if o.id == id then upd o else o) },
    (db.orders.find? (fun o => o.id == id)).map upd )

/-- The optional-detail columns of Transaction.ts `updateTransactionDetails`.
`none` plays the role of the field being `undefined` (not part of the
`SET` list).  The source also accepts a `provider_timestamp` key in this
object but never copies it into the `SET` list, so it is omitted here. -/
structure TxDetails where
  description : Option String
  provider_ref : Option String
  provider_status_code : Option String
  provider_status_desc : Option String
  provider_transaction_id : Option String
deriving DecidableEq, Repr

/-- An empty detail object (no optional column updated). -/
def TxDetails.none : TxDetails :=
  ⟨Option.none, Option.none, Option.none, Option.none, Option.none⟩

/-- The effect of one `UPDATE transactions SET …` statement on a row:
the status column is always set, each detail column only when supplied. -/
def applyTxDetails (t : Transaction) (status : TransactionStatus) (d : TxDetails) :
    Transaction :=
  { t with
    status := status,
    description := if d.description.isSome then d.description else t.description,
    provider_ref := if d.provider_ref.isSome then d.provider_ref else t.provider_ref,
    provider_status_code :=
      if d.provider_status_code.isSome then d.provider_status_code
      else t.provider_status_code,
    provider_status_desc :=
      if d.provider_status_desc.isSome then d.provider_status_desc
      else t.provider_status_desc,
    provider_transaction_id :=
      if d.provider_transaction_id.isSome then d.provider_transaction_id
      else t.provider_transaction_id }

/-- The `transactions_provider_ref_key` UNIQUE-violation test (the schema
declares `provider_ref VARCHAR(100) UNIQUE`): writing `newRef` into row `id`
conflicts exactly when a different row already holds that reference.  A row
re-writing its own current reference cannot conflict, and under the column
constraint "the target and a different row both hold the reference" is an
unreachable store, so the two any-clauses below agree with the database on
every reachable store.  A `none` (the column is not in the `SET` list) never
conflicts. -/
def providerRefCollision (db : DB) (id : Nat) (newRef : Option String) : Bool :=
  match newRef with
  | none => false
  | some r =>
    db.transactions.any (fun t => t.id != id && t.provider_ref == some r)
      && !(db.transactions.any (fun t => t.id == id && t.provider_ref == some r))

/-- Transaction.ts `updateTransactionDetails`: `UPDATE transactions SET
status = $1 [, …] WHERE id = $n RETURNING *`.  The `WHERE` clause tests only
the row id; the current status of the row is not consulted.  When the update
would write a `provider_ref` already held by another row, the UNIQUE
violation (error 23505, `transactions_provider_ref_key`) is caught: the
source logs, returns null, and the row stays unchanged — modelled by the
collision branch.  Other database errors are re-thrown by the source; the
model has no other failing queries. -/
def updateTransactionDetails (db : DB) (id : Nat) (status : TransactionStatus)
    (d : TxDetails) : DB × Option Transaction :=
  if providerRefCollision db id d.provider_ref then (db, none)
  else
    ( { db with
        transactions :=
          db.transactions.map (fun t => if t.id == id then applyTxDetails t status d else t) },
      (db.transactions.find? (fun t => t.id == id)).map
        (fun t => applyTxDetails t status d) )

/-- Input of Transaction.ts `createTransaction` (the caller-supplied columns). -/
structure NewTx where
  order_id : Nat
  user_id : Nat
  provider : String
  provider_ref : Option String
  amount : Int
  status : TransactionStatus
  description : Option String
deriving DecidableEq, Repr

/-- Transaction.ts `createTransaction`: `INSERT INTO transactions … RETURNING *`. -/
def createTransaction (db : DB) (n : NewTx) : DB × Transaction :=
  let t : Transaction :=
    { id := db.nextTxId,
      order_id := n.order_id,
      user_id := n.user_id,
      provider := n.provider,
      provider_ref := n.provider_ref,
      amount := n.amount,
      status := n.status,
      description := n.description,
      provider_status_code := none,
      provider_status_desc := none,
      provider_transaction_id := none }
  ({ db with transactions := db.transactions ++ [t], nextTxId := db.nextTxId + 1 }, t)

/-- Order.ts `createOrder`: `INSERT INTO orders (…, status) VALUES (…, 'pending')
RETURNING *`. -/
def createOrder (db : DB) (buyer_id seller_id : Nat) (item_description : String)
    (amount : Int) (payment_method : String) : DB × Order :=
  let o : Order :=
    { id := db.nextOrderId,
      buyer_id := buyer_id,
      seller_id := seller_id,
      item_description := item_description,
      amount := amount,
      status := OrderStatus.pending,
      payment_method := payment_method,
      proof_of_delivery_url := none }
  ({ db with orders := db.orders ++ [o], nextOrderId := db.nextOrderId + 1 }, o)

/-! ### Provider callback / result handlers -/

/-- The idempotency short-circuit used verbatim by `mpesaCallbackHandler`
(orderController.ts), `handleB2CResult` and `handleReversalResult`:
`transaction.status === 'success' || transaction.status === 'failed'`. -/
def alreadyProcessed (s : TransactionStatus) : Bool :=
  s == TransactionStatus.success || s == TransactionStatus.failed

/-- The parsed `Body.stkCallback` of an STK push callback, with the
`CallbackMetadata.Item` lookups already performed (absent items are `none`). -/
structure StkCallbackBody where
  merchantRequestId : String
  checkoutRequestId : String
  resultCode : Int
  resultDesc : String
  amountPaid : Option Int
  mpesaReceiptNumber : Option String
  transactionDate : Option String
  phoneNumber : Option String
deriving DecidableEq, Repr

/-- orderController.ts `mpesaCallbackHandler`, with one fault-injection point:
`orderUpdateFails = true` models the `updateOrderStatus` query rejecting after
the transaction update already committed; the source has no rollback, the
exception falls through to the outer `catch` which answers 500.
`cb = none` models a request body without `Body.stkCallback`. -/
def mpesaCallbackHandlerRun (db : DB) (cb : Option StkCallbackBody)
    (orderUpdateFails : Bool) : DB × Nat :=
  match cb with
  | none => (db, 400)
  | some b =>
    match findTransactionByProviderRef db b.checkoutRequestId "mpesa" with
    | none => (db, 200)
    | some tx =>
      if alreadyProcessed tx.status then (db, 200)
      else
        match findOrderById db tx.order_id with
        | none => (db, 200)
        | some _order =>
          if b.resultCode == 0 then
            -- underpayment is only logged (console.warn), never acted upon
            let db1 := (updateTransactionDetails db tx.id TransactionStatus.success
              { description :=
                  some ("Paid via " ++ (toString b.phoneNumber)
                    ++ ". Receipt: " ++ (toString b.mpesaReceiptNumber)),
                provider_ref := b.mpesaReceiptNumber,
                provider_status_code := none,
                provider_status_desc := none,
                provider_transaction_id := none }).1
            if orderUpdateFails then (db1, 500)
            else ((updateOrderStatus db1 tx.order_id OrderStatus.paid none).1, 200)
          else
            let db1 := (updateTransactionDetails db tx.id TransactionStatus.failed
              { description := some ("Failed/Cancelled. Desc: " ++ b.resultDesc),
                provider_ref := some b.checkoutRequestId,
                provider_status_code := none,
                provider_status_desc := none,
                provider_transaction_id := none }).1
            (db1, 200)

/-- The callback handler on the fault-free path (both queries commit). -/
def mpesaCallbackHandler (db : DB) (cb : Option StkCallbackBody) : DB × Nat :=
  mpesaCallbackHandlerRun db cb false

/-- The normalized result of the M-Pesa transaction-status query. -/
structure StatusQueryResult where
  resultCode : Int
  resultDesc : String
  receiptNumber : Option String
  amount : Option Int
deriving DecidableEq, Repr

/-- mpesa.ts `queryMpesaTransactionStatus`: a placeholder that performs no
provider call and resolves to `{ ResultCode: -1, ResultDesc: "Status query
not implemented" }` for every checkoutRequestId. -/
def queryMpesaTransactionStatus : StatusQueryResult :=
  { resultCode := -1,
    resultDesc := "Status query not implemented",
    receiptNumber := none,
    amount := none }

/-- orderController.ts `mpesaTimeoutHandler`, parametric in the result the
status query resolved with. -/
def mpesaTimeoutHandlerWith (db : DB) (checkoutRequestId : String)
    (statusResult : StatusQueryResult) : DB × Nat :=
  match findTransactionByProviderRef db checkoutRequestId "mpesa" with
  | none => (db, 200)
  | some tx =>
    if tx.status != TransactionStatus.pending then (db, 200)
    else if statusResult.resultCode == 0 then
      let db1 := (updateTransactionDetails db tx.id TransactionStatus.success
        { description :=
            some ("Success confirmed via Status Query after timeout. Desc: "
              ++ statusResult.resultDesc),
          provider_ref := some (statusResult.receiptNumber.getD "N/A_FROM_QUERY"),
          provider_status_code := none,
          provider_status_desc := none,
          provider_transaction_id := none }).1
      ((updateOrderStatus db1 tx.order_id OrderStatus.paid none).1, 200)
    else
      let db1 := (updateTransactionDetails db tx.id TransactionStatus.failed
        { description :=
            some ("Failed after timeout. Status Query Result: " ++ statusResult.resultDesc),
          provider_ref := some checkoutRequestId,
          provider_status_code := none,
          provider_status_desc := none,
          provider_transaction_id := none }).1
      (db1, 200)

/-- The timeout handler as the source composes it: the status query it
awaits is the `queryMpesaTransactionStatus` placeholder. -/
def mpesaTimeoutHandler (db : DB) (checkoutRequestId : String) : DB × Nat :=
  mpesaTimeoutHandlerWith db checkoutRequestId queryMpesaTransactionStatus

/-- The fields of the M-Pesa B2C payout result callback the handler reads. -/
structure B2CResult where
  originatorConversationID : String
  resultCode : Int
  resultDesc : String
  transactionID : String
deriving DecidableEq, Repr

/-- mpesa.ts `handleB2CResult`.  `cb = none` models a payload without a
`Result` object.  On the success branch the source passes
`provider_receipt`/`provider_timestamp` keys, which `updateTransactionDetails`
does not copy into the `SET` list, so only the status and description columns
change. -/
def handleB2CResult (db : DB) (cb : Option B2CResult) : DB :=
  match cb with
  | none => db
  | some r =>
    match findTransactionByProviderRef db r.originatorConversationID "mpesa_b2c" with
    | none => db
    | some tx =>
      if alreadyProcessed tx.status then db
      else if r.resultCode == 0 then
        let db1 := (updateTransactionDetails db tx.id TransactionStatus.success
          { description :=
              some ("Payout successful. M-Pesa Receipt: " ++ r.transactionID
                ++ ". " ++ r.resultDesc),
            provider_ref := none,
            provider_status_code := none,
            provider_status_desc := none,
            provider_transaction_id := none }).1
        (updateOrderStatus db1 tx.order_id OrderStatus.completed none).1
      else
        let db1 := (updateTransactionDetails db tx.id TransactionStatus.failed
          { description := some ("Payout failed. Reason: " ++ r.resultDesc),
            provider_ref := none,
            provider_status_code := none,
            provider_status_desc := none,
            provider_transaction_id := none }).1
        (updateOrderStatus db1 tx.order_id OrderStatus.delivered none).1

/-- The fields of the M-Pesa reversal (refund) result callback the handler reads. -/
structure ReversalResult where
  originatorConversationID : String
  resultCode : Int
  resultDesc : String
  transactionID : String
deriving DecidableEq, Repr

/-- Reversal result handler `handleReversalResult` (extended mpesa service revision): reversal
success finalizes the transaction `success` and the order `refunded`;
reversal failure finalizes the transaction `failed` and writes the order
status `refund_failed`. -/
def handleReversalResult (db : DB) (cb : Option ReversalResult) : DB :=
  match cb with
  | none => db
  | some r =>
    match findTransactionByProviderRef db r.originatorConversationID "mpesa_reversal" with
    | none => db
    | some tx =>
      if alreadyProcessed tx.status then db
      else if r.resultCode == 0 then
        let db1 := (updateTransactionDetails db tx.id TransactionStatus.success
          { description :=
              some ("Refund successful (Reversal). Original M-Pesa TxID: "
                ++ r.transactionID ++ ". " ++ r.resultDesc),
            provider_ref := some r.transactionID,
            provider_status_code := some (toString r.resultCode),
            provider_status_desc := some r.resultDesc,
            provider_transaction_id := none }).1
        (updateOrderStatus db1 tx.order_id OrderStatus.refunded none).1
      else
        let db1 := (updateTransactionDetails db tx.id TransactionStatus.failed
          { description := some ("Refund failed (Reversal). Reason: " ++ r.resultDesc),
            provider_ref := some r.transactionID,
            provider_status_code := some (toString r.resultCode),
            provider_status_desc := some r.resultDesc,
            provider_transaction_id := none }).1
        (updateOrderStatus db1 tx.order_id OrderStatus.refund_failed none).1

/-! ### User-facing controllers and admin dispute resolution -/

/-- An outbound payment-provider initiation call made while handling a request. -/
inductive ProviderCall
  | stkPush (orderId : Nat) (phone : String) (amount : Int)
  | b2cPayment (phone : String) (amount : Int)
  | mpesaReversal (originalTxId : String) (amount : Int)
deriving DecidableEq, Repr

/-- Outcome of a controller run: the store afterwards, the HTTP status
answered, and the trace of provider initiation calls that were issued. -/
structure ControllerResult where
  db : DB
  httpStatus : Nat
  calls : List ProviderCall
deriving DecidableEq, Repr

/-- orderController.ts `confirmOrderDelivery`: buyer-only, requires status
`shipped`, sets the order `completed`, then — fund release logic being
unimplemented (`console.warn`) — records a `success` `system` transaction for
the order amount without issuing any payout call. -/
def confirmOrderDelivery (db : DB) (userId orderId : Nat) : ControllerResult :=
  match findOrderById db orderId with
  | none => ⟨db, 404, []⟩
  | some order =>
    if order.buyer_id != userId then ⟨db, 403, []⟩
    else if order.status != OrderStatus.shipped then ⟨db, 400, []⟩
    else
      let (db1, updated) := updateOrderStatus db orderId OrderStatus.completed none
      match updated with
      | none => ⟨db1, 500, []⟩
      | some _ =>
        let (db2, _) := createTransaction db1
          { order_id := orderId,
            user_id := userId,
            provider := "system",
            provider_ref := none,
            amount := order.amount,
            status := TransactionStatus.success,
            description :=
              some "Buyer confirmed delivery. Funds released/release initiated." }
        ⟨db2, 200, []⟩

/-- orderController.ts `raiseOrderDispute`: buyer or seller, requires status
in {paid, shipped, delivered}, sets the order `disputed` and logs a pending
`system` transaction. -/
def raiseOrderDispute (db : DB) (userId orderId : Nat) (reason : Option String) :
    ControllerResult :=
  match reason with
  | none => ⟨db, 400, []⟩
  | some rsn =>
    match findOrderById db orderId with
    | none => ⟨db, 404, []⟩
    | some order =>
      if order.buyer_id != userId && order.seller_id != userId then ⟨db, 403, []⟩
      else if !(order.status == OrderStatus.paid || order.status == OrderStatus.shipped
          || order.status == OrderStatus.delivered) then ⟨db, 400, []⟩
      else
        let (db1, updated) := updateOrderStatus db orderId OrderStatus.disputed none
        match updated with
        | none => ⟨db1, 500, []⟩
        | some _ =>
          let (db2, _) := createTransaction db1
            { order_id := orderId,
              user_id := userId,
              provider := "system",
              provider_ref := none,
              amount := 0,
              status := TransactionStatus.pending,
              description := some ("Dispute raised. Reason: " ++ rsn) }
          ⟨db2, 200, []⟩

/-- Outcome of the `initiateB2CPayment` service call as seen by the admin
controller: either a response object or a thrown error. -/
inductive B2CInitOutcome
  | accepted (responseCode : String) (originatorConversationID : String)
  | threw (message : String)
deriving DecidableEq, Repr

/-- The controller-local payout-initiation classification of
adminController.ts `resolveDisputeReleaseFunds`. -/
inductive PayoutInitStatus
  | initiated
  | failed
  | skipped
deriving DecidableEq, Repr

/-- adminController.ts `resolveDisputeReleaseFunds`: requires `disputed`;
M-Pesa payouts call `initiateB2CPayment` (outcome passed in) and on
acceptance move the order to `processing_payout`; every other payment method
is an unimplemented payout path that records a `skipped` transaction and
leaves the order `disputed`, answered 422; failed initiation records a
`failed` transaction, keeps `disputed`, answered 500. -/
def resolveDisputeReleaseFunds (db : DB) (adminId orderId : Nat)
    (b2c : B2CInitOutcome) : ControllerResult :=
  match findOrderById db orderId with
  | none => ⟨db, 404, []⟩
  | some order =>
    if order.status != OrderStatus.disputed then ⟨db, 400, []⟩
    else
      match (findUserById db order.seller_id).bind
          (fun s => s.phone_number.map (fun p => p)) with
      | none =>
        let (db1, _) := createTransaction db
          { order_id := orderId,
            user_id := adminId,
            provider := "system_error",
            provider_ref := none,
            amount := order.amount,
            status := TransactionStatus.failed,
            description := some "Fund release attempted, seller phone number missing." }
        ⟨db1, 500, []⟩
      | some phone =>
        let outcome :
            PayoutInitStatus × OrderStatus × String × Option String × List ProviderCall :=
          if order.payment_method == "mpesa" then
            match b2c with
            | B2CInitOutcome.accepted code ocid =>
              if code == "0" then
                (PayoutInitStatus.initiated, OrderStatus.processing_payout,
                  "mpesa_b2c", some ocid, [ProviderCall.b2cPayment phone order.amount])
              else
                (PayoutInitStatus.failed, OrderStatus.disputed,
                  "mpesa_b2c", none, [ProviderCall.b2cPayment phone order.amount])
            | B2CInitOutcome.threw _ =>
              (PayoutInitStatus.failed, OrderStatus.disputed,
                "mpesa_b2c", none, [ProviderCall.b2cPayment phone order.amount])
          else if order.payment_method == "airtel" then
            (PayoutInitStatus.skipped, OrderStatus.disputed, "airtel_payout", none, [])
          else if order.payment_method == "equity" then
            (PayoutInitStatus.skipped, OrderStatus.disputed, "equity_payout", none, [])
          else
            (PayoutInitStatus.skipped, OrderStatus.disputed,
              order.payment_method ++ "_payout", none, [])
        match outcome with
        | (initStatus, afterStatus, provider, ref, calls) =>
          let db1 :=
            if order.status != afterStatus then (updateOrderStatus db orderId afterStatus none).1
            else db
          let (db2, _) := createTransaction db1
            { order_id := orderId,
              user_id := adminId,
              provider := provider,
              provider_ref := ref,
              amount := order.amount,
              status :=
                match initStatus with
                | PayoutInitStatus.initiated => TransactionStatus.pending
                | PayoutInitStatus.failed => TransactionStatus.failed
                | PayoutInitStatus.skipped => TransactionStatus.skipped,
              description := some "Admin resolved dispute: Release funds." }
          ⟨db2,
            match initStatus with
            | PayoutInitStatus.initiated => 200
            | PayoutInitStatus.failed => 500
            | PayoutInitStatus.skipped => 422,
            calls⟩

/-- The request body of `createNewOrder` (`none` fields were absent). -/
structure CreateOrderRequest where
  sellerIdentifier : Option String
  item_description : Option String
  amount : Option Int
  payment_method : Option String
deriving DecidableEq, Repr

/-- Outcome of the `initiateStkPush` service call. -/
inductive StkInitOutcome
  | ok (checkoutRequestID : String)
  | threw (message : String)
deriving DecidableEq, Repr

/-- JavaScript truthiness of an optional string field (absent or empty → falsy). -/
def truthyStr (s : Option String) : Bool :=
  match s with
  | none => false
  | some v => v != ""

/-- JavaScript truthiness of an optional numeric field (absent or 0 → falsy). -/
def truthyNum (n : Option Int) : Bool :=
  match n with
  | none => false
  | some v => v != 0

/-- ASCII lower-casing of a character, as JavaScript `toLowerCase` acts on
the method names compared here. -/
def lowerAsciiChar (c : Char) : Char :=
  if 'A' <= c && c <= 'Z' then Char.ofNat (c.toNat + 32) else c

/-- ASCII lower-casing of a string (the effect of `payment_method.toLowerCase()`). -/
def toLowerAscii (s : String) : String :=
  String.mk (s.data.map lowerAsciiChar)

/-- orderController.ts: the `supportedPaymentMethods` array. -/
def supportedPaymentMethods : List String :=
  ["mpesa", "airtel", "equity", "pesapal", "tkash", "ipay", "dpo", "jambopay"]

/-- orderController.ts `createNewOrder`: field-presence check via JS
truthiness (`!sellerIdentifier || !item_description || !amount ||
!payment_method`), supported-method check, seller lookup and role check,
buyer lookup, M-Pesa phone requirement; then the order (status `pending`,
with the request's amount as-is) and an initial `pending` transaction are
inserted, and payment initiation runs.  The M-Pesa branch (STK push, outcome
passed in) and the warn-only airtel/equity branches are modelled; the
remaining redirect-style adapters likewise answer 201 with the order already
persisted and are folded into one branch. -/
def createNewOrder (db : DB) (buyerId : Nat) (req : CreateOrderRequest)
    (stk : StkInitOutcome) : ControllerResult :=
  if !(truthyStr req.sellerIdentifier && truthyStr req.item_description
      && truthyNum req.amount && truthyStr req.payment_method) then ⟨db, 400, []⟩
  else
    let ident := req.sellerIdentifier.getD ""
    let item := req.item_description.getD ""
    let amount := req.amount.getD 0
    let method := req.payment_method.getD ""
    if !(supportedPaymentMethods.contains (toLowerAscii method)) then ⟨db, 400, []⟩
    else
      match findUserByEmailOrPhone db ident with
      | none => ⟨db, 404, []⟩
      | some seller =>
        if seller.role != "seller" && seller.role != "business" then ⟨db, 400, []⟩
        else
          match findUserById db buyerId with
          | none => ⟨db, 404, []⟩
          | some buyer =>
            if toLowerAscii method == "mpesa" && buyer.phone_number.isNone then ⟨db, 400, []⟩
            else
              let (db1, order) := createOrder db buyerId seller.id item amount method
              let (db2, tx) := createTransaction db1
                { order_id := order.id,
                  user_id := buyerId,
                  provider := method,
                  provider_ref := none,
                  amount := amount,
                  status := TransactionStatus.pending,
                  description := some "Order created. Initiating payment." }
              if toLowerAscii method == "mpesa" then
                match buyer.phone_number with
                | none => ⟨db2, 500, []⟩
                | some phone =>
                  match stk with
                  | StkInitOutcome.ok checkoutId =>
                    let db3 := (updateTransactionDetails db2 tx.id TransactionStatus.pending
                      { description := some "M-Pesa STK Push initiated.",
                        provider_ref := some checkoutId,
                        provider_status_code := none,
                        provider_status_desc := none,
                        provider_transaction_id := none }).1
                    ⟨db3, 201, [ProviderCall.stkPush order.id phone amount]⟩
                  | StkInitOutcome.threw _ =>
                    let db3 := (updateTransactionDetails db2 tx.id TransactionStatus.failed
                      { description := some "Payment initiation failed.",
                        provider_ref := none,
                        provider_status_code := none,
                        provider_status_desc := none,
                        provider_transaction_id := none }).1
                    ⟨db3, 500, [ProviderCall.stkPush order.id phone amount]⟩
              else if toLowerAscii method == "airtel" || toLowerAscii method == "equity" then
                let db3 := (updateTransactionDetails db2 tx.id TransactionStatus.pending
                  { description := some "Payment initiation requested (not implemented).",
                    provider_ref := none,
                    provider_status_code := none,
                    provider_status_desc := none,
                    provider_transaction_id := none }).1
                ⟨db3, 201, []⟩
              else ⟨db2, 201, []⟩

/-! ### Concrete fixtures (used by witnesses and counterexamples) -/

/-- A one-order fixture row. -/
def sampleOrder (st : OrderStatus) (method : String) : Order :=
  { id := 1,
    buyer_id := 10,
    seller_id := 20,
    item_description := "widget",
    amount := 1000,
    status := st,
    payment_method := method,
    proof_of_delivery_url := none }

/-- A one-transaction fixture row (id 7, attached to order 1). -/
def sampleTx (st : TransactionStatus) (provider ref : String) : Transaction :=
  { id := 7,
    order_id := 1,
    user_id := 10,
    provider := provider,
    provider_ref := some ref,
    amount := 1000,
    status := st,
    description := none,
    provider_status_code := none,
    provider_status_desc := none,
    provider_transaction_id := none }

/-- The two fixture users: buyer 10 and seller 20, both with phone numbers. -/
def sampleUsers : List User :=
  [ { id := 10, email := "buyer@example.com",
      phone_number := some "254700000001", role := "buyer" },
    { id := 20, email := "seller@example.com",
      phone_number := some "254700000002", role := "seller" } ]

/-- Fixture store: one order, one transaction, the two users. -/
def sampleDB (ost : OrderStatus) (method : String) (tst : TransactionStatus)
    (provider ref : String) : DB :=
  { orders := [sampleOrder ost method],
    transactions := [sampleTx tst provider ref],
    users := sampleUsers,
    nextOrderId := 2,
    nextTxId := 8 }

/-- Fixture store with no transactions yet (for order-creation scenarios). -/
def emptyDB : DB :=
  { orders := [], transactions := [], users := sampleUsers,
    nextOrderId := 1, nextTxId := 1 }

/-- A successful STK-push callback body quoting reference `ref`. -/
def successCb (ref : String) : StkCallbackBody :=
  { merchantRequestId := "MR1",
    checkoutRequestId := ref,
    resultCode := 0,
    resultDesc := "The service request is processed successfully.",
    amountPaid := some 1000,
    mpesaReceiptNumber := some "RCPT001",
    transactionDate := some "20250101120000",
    phoneNumber := some "254700000001" }

/-- A failed STK-push callback body quoting reference `ref`. -/
def failureCb (ref : String) : StkCallbackBody :=
  { merchantRequestId := "MR1",
    checkoutRequestId := ref,
    resultCode := 1032,
    resultDesc := "Request cancelled by user",
    amountPaid := none,
    mpesaReceiptNumber := none,
    transactionDate := none,
    phoneNumber := none }

/-! ### Helper lemmas about the store operations -/

/-- Finding a keyed row through a key-preserving row update. -/
theorem find?_map_key {α : Type} (key : α → Nat) (id : Nat) (f : α → α)
    (hf : ∀ a, key (f a) = key a) (l : List α) :
    (l.map (fun a => if key a == id then f a else a)).find? (fun a => key a == id)
      = (l.find? (fun a => key a == id)).map f := by
  induction l with
  | nil => rfl
  | cons a t ih =>
    simp only [List.map_cons, List.find?_cons]
    by_cases h : key a = id
    · simp [h, hf]
    · have hb : (key a == id) = false := by simp [h]
      simp only [hb, if_neg, cond_false]
      simpa [hb] using ih

/-- The row an `updateOrderStatus` write produces for the targeted id. -/
def ordStatusUpd (st : OrderStatus) (proofUrl : Option String) (o : Order) : Order :=
  { o with
    status := st,
    proof_of_delivery_url :=
      if st == OrderStatus.shipped && proofUrl.isSome then proofUrl
      else o.proof_of_delivery_url }

/-- Reading the targeted order back after `updateOrderStatus`. -/
theorem findOrderById_updateOrderStatus (db : DB) (id : Nat) (st : OrderStatus)
    (pf : Option String) :
    findOrderById (updateOrderStatus db id st pf).1 id
      = (findOrderById db id).map (ordStatusUpd st pf) := by
  show (db.orders.map (fun o => if o.id == id then ordStatusUpd st pf o else o)).find?
      (fun o => o.id == id)
    = (db.orders.find? (fun o => o.id == id)).map (ordStatusUpd st pf)
  exact find?_map_key Order.id id (ordStatusUpd st pf) (fun a => rfl) db.orders

/-- The order-status update leaves the transactions relation untouched. -/
theorem updateOrderStatus_transactions (db : DB) (id : Nat) (st : OrderStatus)
    (pf : Option String) :
    (updateOrderStatus db id st pf).1.transactions = db.transactions := rfl

/-- The transaction update leaves the orders relation untouched, on both
the applied and the collision branch. -/
theorem updateTransactionDetails_orders (db : DB) (id : Nat)
    (st : TransactionStatus) (d : TxDetails) :
    (updateTransactionDetails db id st d).1.orders = db.orders := by
  unfold updateTransactionDetails
  split <;> rfl

/-- The transaction update changes no order lookup, on either branch. -/
theorem findOrderById_updateTransactionDetails (db : DB) (id : Nat)
    (st : TransactionStatus) (d : TxDetails) (oid : Nat) :
    findOrderById (updateTransactionDetails db id st d).1 oid = findOrderById db oid := by
  unfold updateTransactionDetails
  split <;> rfl

/-- On a conflict-free write the transaction update maps the targeted row. -/
theorem updateTransactionDetails_fst_no_collision (db : DB) (id : Nat)
    (st : TransactionStatus) (d : TxDetails)
    (h : providerRefCollision db id d.provider_ref = false) :
    (updateTransactionDetails db id st d).1
      = { db with
          transactions :=
            db.transactions.map (fun t => if t.id == id then applyTxDetails t st d else t) } := by
  unfold updateTransactionDetails
  simp only [h, Bool.false_eq_true, if_false]

/-- On a conflict-free write the transactions relation is the row map. -/
theorem updateTransactionDetails_transactions_no_collision (db : DB) (id : Nat)
    (st : TransactionStatus) (d : TxDetails)
    (h : providerRefCollision db id d.provider_ref = false) :
    (updateTransactionDetails db id st d).1.transactions
      = db.transactions.map (fun t => if t.id == id then applyTxDetails t st d else t) := by
  rw [updateTransactionDetails_fst_no_collision db id st d h]

/-- On a conflict-free write the returned row is the mapped find. -/
theorem updateTransactionDetails_snd_no_collision (db : DB) (id : Nat)
    (st : TransactionStatus) (d : TxDetails)
    (h : providerRefCollision db id d.provider_ref = false) :
    (updateTransactionDetails db id st d).2
      = (txById db id).map (fun t => applyTxDetails t st d) := by
  unfold updateTransactionDetails txById
  simp only [h, Bool.false_eq_true, if_false]

/-- Reading the targeted transaction back after a conflict-free
`updateTransactionDetails`. -/
theorem txById_updateTransactionDetails (db : DB) (id : Nat)
    (st : TransactionStatus) (d : TxDetails)
    (h : providerRefCollision db id d.provider_ref = false) :
    txById (updateTransactionDetails db id st d).1 id
      = (txById db id).map (fun t => applyTxDetails t st d) := by
  rw [show txById (updateTransactionDetails db id st d).1 id
      = (updateTransactionDetails db id st d).1.transactions.find? (fun t => t.id == id)
    from rfl]
  rw [updateTransactionDetails_transactions_no_collision db id st d h]
  exact find?_map_key Transaction.id id (fun t => applyTxDetails t st d)
    (fun a => rfl) db.transactions

/-- A row found by its own correlation reference can never conflict when
that same reference is written back to it (the self-assignment case). -/
theorem providerRefCollision_self (db : DB) (tx : Transaction) (r p : String)
    (h : findTransactionByProviderRef db r p = some tx) :
    providerRefCollision db tx.id (some r) = false := by
  have hmem : tx ∈ db.transactions := List.mem_of_find?_eq_some h
  have hp := List.find?_some h
  have href : (tx.provider_ref == some r) = true := ((Bool.and_eq_true _ _).mp hp).1
  have hself : db.transactions.any (fun t => t.id == tx.id && t.provider_ref == some r)
      = true := by
    apply List.any_eq_true.mpr
    exact ⟨tx, hmem, by simp [href]⟩
  show ((db.transactions.any fun t => t.id != tx.id && t.provider_ref == some r)
      && !(db.transactions.any fun t => t.id == tx.id && t.provider_ref == some r)) = false
  rw [hself]
  simp

/-- The returned row of `updateOrderStatus` is the mapped find. -/
theorem updateOrderStatus_ret (db : DB) (id : Nat) (st : OrderStatus)
    (pf : Option String) :
    (updateOrderStatus db id st pf).2 = (findOrderById db id).map (ordStatusUpd st pf) := rfl

/-! ### Claim theorems -/

/-- C2 counterexample: order status writes are not compare-and-swap guarded.
Starting from a `shipped` order (the snapshot both a confirm-delivery and a
raise-dispute request read), the confirm-delivery write succeeds, and then
the raise-dispute write also succeeds although the stored status at that
point is `completed`, which is not one of the disputable from-states — so of
two conflicting transitions both are applied, the second is not rejected. -/
theorem concurrent_transitions_both_succeed_cex :
    (findOrderById (sampleDB OrderStatus.shipped "mpesa" TransactionStatus.pending
        "mpesa" "CRQ1") 1).map Order.status = some OrderStatus.shipped
    ∧ (updateOrderStatus (sampleDB OrderStatus.shipped "mpesa" TransactionStatus.pending
        "mpesa" "CRQ1") 1 OrderStatus.completed none).2.isSome = true
    ∧ (findOrderById (updateOrderStatus (sampleDB OrderStatus.shipped "mpesa"
        TransactionStatus.pending "mpesa" "CRQ1") 1 OrderStatus.completed none).1 1).map
        Order.status = some OrderStatus.completed
    ∧ (updateOrderStatus (updateOrderStatus (sampleDB OrderStatus.shipped "mpesa"
        TransactionStatus.pending "mpesa" "CRQ1") 1 OrderStatus.completed none).1 1
        OrderStatus.disputed none).2.isSome = true
    ∧ (findOrderById (updateOrderStatus (updateOrderStatus (sampleDB OrderStatus.shipped
        "mpesa" TransactionStatus.pending "mpesa" "CRQ1") 1 OrderStatus.completed none).1 1
        OrderStatus.disputed none).1 1).map Order.status = some OrderStatus.disputed
    ∧ (OrderStatus.completed ≠ OrderStatus.paid ∧ OrderStatus.completed ≠ OrderStatus.shipped
        ∧ OrderStatus.completed ≠ OrderStatus.delivered) := by
  decide

/-- C2 (amended): `updateOrderStatus` performs an unconditional
`UPDATE … WHERE id = $2` with no predicate on the stored status: for any
stored order, whatever its current status, the write succeeds and the row
afterwards carries the requested status. -/
theorem updateOrderStatus_unguarded (db : DB) (id : Nat) (st : OrderStatus)
    (o : Order) (h : findOrderById db id = some o) :
    (updateOrderStatus db id st none).2.isSome = true
    ∧ (findOrderById (updateOrderStatus db id st none).1 id).map Order.status = some st := by
  constructor
  · rw [updateOrderStatus_ret, h]
    rfl
  · rw [findOrderById_updateOrderStatus, h]
    cases st <;> rfl

/-- Witness for `updateOrderStatus_unguarded`: applied to a `completed`
order, for which no transition expects `completed` as from-state. -/
theorem updateOrderStatus_unguarded_witness :
    (updateOrderStatus (sampleDB OrderStatus.completed "mpesa" TransactionStatus.pending
        "mpesa" "CRQ1") 1 OrderStatus.disputed none).2.isSome = true
    ∧ (findOrderById (updateOrderStatus (sampleDB OrderStatus.completed "mpesa"
        TransactionStatus.pending "mpesa" "CRQ1") 1 OrderStatus.disputed none).1 1).map
        Order.status = some OrderStatus.disputed :=
  updateOrderStatus_unguarded
    (sampleDB OrderStatus.completed "mpesa" TransactionStatus.pending "mpesa" "CRQ1")
    1 OrderStatus.disputed (sampleOrder OrderStatus.completed "mpesa") (by decide)

/-- C3 counterexample: a status update on a transaction already in the
terminal status `success` is not rejected: the call does not return the
existing record unchanged, and afterwards the stored status is `pending` —
the transaction regressed out of a terminal status. -/
theorem terminal_transaction_update_applied_cex :
    (txById (sampleDB OrderStatus.paid "mpesa" TransactionStatus.success "mpesa" "CRQ1") 7).map
        Transaction.status = some TransactionStatus.success
    ∧ (updateTransactionDetails (sampleDB OrderStatus.paid "mpesa" TransactionStatus.success
        "mpesa" "CRQ1") 7 TransactionStatus.pending TxDetails.none).2
        ≠ some (sampleTx TransactionStatus.success "mpesa" "CRQ1")
    ∧ (txById (updateTransactionDetails (sampleDB OrderStatus.paid "mpesa"
        TransactionStatus.success "mpesa" "CRQ1") 7 TransactionStatus.pending
        TxDetails.none).1 7).map Transaction.status = some TransactionStatus.pending := by
  decide

/-- C3 (amended): the ledger has no terminal-status no-op guard.  For any
stored transaction, terminal or not, a conflict-free update applies the new
status and details (`applyTxDetails t newStatus d`) and returns the updated
row; the only rejection `updateTransactionDetails` implements is the
`UNIQUE(provider_ref)` violation catch, which returns null and leaves the
store unchanged.  Replay idempotency otherwise exists only in callers'
pre-checks, and only for `success`/`failed`. -/
theorem updateTransactionDetails_unconditional (db : DB) (id : Nat)
    (st : TransactionStatus) (d : TxDetails) (t : Transaction)
    (h : txById db id = some t) :
    (providerRefCollision db id d.provider_ref = false →
      (updateTransactionDetails db id st d).2 = some (applyTxDetails t st d)
      ∧ txById (updateTransactionDetails db id st d).1 id
          = some (applyTxDetails t st d))
    ∧ (providerRefCollision db id d.provider_ref = true →
      updateTransactionDetails db id st d = (db, none)) := by
  constructor
  · intro hnc
    constructor
    · rw [updateTransactionDetails_snd_no_collision db id st d hnc, h]
      rfl
    · rw [txById_updateTransactionDetails db id st d hnc, h]
      rfl
  · intro hc
    simp only [updateTransactionDetails, hc, if_true]

/-- Witness for `updateTransactionDetails_unconditional`: applied to a
transaction in terminal status `refunded`, moved back to `pending` by a
detail-free (hence conflict-free) update. -/
theorem updateTransactionDetails_unconditional_witness :
    (providerRefCollision (sampleDB OrderStatus.refunded "mpesa"
        TransactionStatus.refunded "mpesa" "CRQ1") 7 TxDetails.none.provider_ref = false →
      (updateTransactionDetails (sampleDB OrderStatus.refunded "mpesa"
          TransactionStatus.refunded "mpesa" "CRQ1") 7 TransactionStatus.pending
          TxDetails.none).2
        = some (applyTxDetails (sampleTx TransactionStatus.refunded "mpesa" "CRQ1")
            TransactionStatus.pending TxDetails.none)
      ∧ txById (updateTransactionDetails (sampleDB OrderStatus.refunded "mpesa"
          TransactionStatus.refunded "mpesa" "CRQ1") 7 TransactionStatus.pending
          TxDetails.none).1 7
        = some (applyTxDetails (sampleTx TransactionStatus.refunded "mpesa" "CRQ1")
            TransactionStatus.pending TxDetails.none))
    ∧ (providerRefCollision (sampleDB OrderStatus.refunded "mpesa"
        TransactionStatus.refunded "mpesa" "CRQ1") 7 TxDetails.none.provider_ref = true →
      updateTransactionDetails (sampleDB OrderStatus.refunded "mpesa"
          TransactionStatus.refunded "mpesa" "CRQ1") 7 TransactionStatus.pending
          TxDetails.none
        = (sampleDB OrderStatus.refunded "mpesa" TransactionStatus.refunded
            "mpesa" "CRQ1", none)) :=
  updateTransactionDetails_unconditional
    (sampleDB OrderStatus.refunded "mpesa" TransactionStatus.refunded "mpesa" "CRQ1")
    7 TransactionStatus.pending TxDetails.none
    (sampleTx TransactionStatus.refunded "mpesa" "CRQ1") (by decide)

/-- C10: in the M-Pesa collection callback handler, the B2C result handler
and the reversal result handler, the already-processed guard treats exactly
`success` and `failed` as terminal; a replayed callback for a transaction in
`refunded`, `processing` or `skipped` is not short-circuited but processed
again, re-finalizing the transaction and re-applying the order transition. -/
theorem already_processed_guard_only_success_failed :
    (alreadyProcessed TransactionStatus.success = true
      ∧ alreadyProcessed TransactionStatus.failed = true
      ∧ alreadyProcessed TransactionStatus.refunded = false
      ∧ alreadyProcessed TransactionStatus.processing = false
      ∧ alreadyProcessed TransactionStatus.skipped = false)
    ∧ ((txById (mpesaCallbackHandler (sampleDB OrderStatus.refunded "mpesa"
          TransactionStatus.refunded "mpesa" "CRQ1") (some (successCb "CRQ1"))).1 7).map
          Transaction.status = some TransactionStatus.success
        ∧ (findOrderById (mpesaCallbackHandler (sampleDB OrderStatus.refunded "mpesa"
          TransactionStatus.refunded "mpesa" "CRQ1") (some (successCb "CRQ1"))).1 1).map
          Order.status = some OrderStatus.paid)
    ∧ ((txById (handleB2CResult (sampleDB OrderStatus.refunded "mpesa"
          TransactionStatus.refunded "mpesa_b2c" "OCID1")
          (some { originatorConversationID := "OCID1", resultCode := 0,
                  resultDesc := "ok", transactionID := "TX77" })) 7).map
          Transaction.status = some TransactionStatus.success
        ∧ (findOrderById (handleB2CResult (sampleDB OrderStatus.refunded "mpesa"
          TransactionStatus.refunded "mpesa_b2c" "OCID1")
          (some { originatorConversationID := "OCID1", resultCode := 0,
                  resultDesc := "ok", transactionID := "TX77" })) 1).map
          Order.status = some OrderStatus.completed)
    ∧ ((txById (handleReversalResult (sampleDB OrderStatus.processing_refund "mpesa"
          TransactionStatus.skipped "mpesa_reversal" "OCID2")
          (some { originatorConversationID := "OCID2", resultCode := 0,
                  resultDesc := "ok", transactionID := "TX78" })) 7).map
          Transaction.status = some TransactionStatus.success
        ∧ (findOrderById (handleReversalResult (sampleDB OrderStatus.processing_refund
          "mpesa" TransactionStatus.skipped "mpesa_reversal" "OCID2")
          (some { originatorConversationID := "OCID2", resultCode := 0,
                  resultDesc := "ok", transactionID := "TX78" })) 1).map
          Order.status = some OrderStatus.refunded) := by
  decide

/-- C1 counterexample: a failed M-Pesa B2C payout result does not revert the
order to `disputed`; the handler writes `delivered`. -/
theorem failed_payout_sets_delivered_not_disputed_cex :
    (findOrderById (handleB2CResult (sampleDB OrderStatus.processing_payout "mpesa"
        TransactionStatus.pending "mpesa_b2c" "OCID1")
        (some { originatorConversationID := "OCID1", resultCode := 1,
                resultDesc := "The initiator information is invalid.",
                transactionID := "TX9" })) 1).map Order.status = some OrderStatus.delivered
    ∧ OrderStatus.delivered ≠ OrderStatus.disputed
    ∧ (txById (handleB2CResult (sampleDB OrderStatus.processing_payout "mpesa"
        TransactionStatus.pending "mpesa_b2c" "OCID1")
        (some { originatorConversationID := "OCID1", resultCode := 1,
                resultDesc := "The initiator information is invalid.",
                transactionID := "TX9" })) 7).map
        Transaction.status = some TransactionStatus.failed := by
  decide

/-- C1 (amended): on a failure callback the matching transaction is marked
`failed` in every handler (for the reversal under the side condition that
the original-payment receipt it writes back as `provider_ref` is not already
held by a different row, in which case the source's UNIQUE catch leaves the
row un-updated); the order is left unchanged for collections, but a failed
payout writes the order status `delivered` and a failed reversal writes
`refund_failed` — never `disputed`. -/
theorem failure_callback_order_effects
    (db : DB) (b : StkCallbackBody) (tx : Transaction)
    (db2 : DB) (r : B2CResult) (tx2 : Transaction) (order2 : Order)
    (db3 : DB) (rv : ReversalResult) (tx3 : Transaction) (order3 : Order)
    (h1 : findTransactionByProviderRef db b.checkoutRequestId "mpesa" = some tx)
    (h2 : alreadyProcessed tx.status = false)
    (h3 : (findOrderById db tx.order_id).isSome = true)
    (h4 : (b.resultCode == 0) = false)
    (h5 : txById db tx.id = some tx)
    (g1 : findTransactionByProviderRef db2 r.originatorConversationID "mpesa_b2c" = some tx2)
    (g2 : alreadyProcessed tx2.status = false)
    (g3 : (r.resultCode == 0) = false)
    (g4 : txById db2 tx2.id = some tx2)
    (g5 : findOrderById db2 tx2.order_id = some order2)
    (k1 : findTransactionByProviderRef db3 rv.originatorConversationID "mpesa_reversal"
        = some tx3)
    (k2 : alreadyProcessed tx3.status = false)
    (k3 : (rv.resultCode == 0) = false)
    (k4 : txById db3 tx3.id = some tx3)
    (k5 : findOrderById db3 tx3.order_id = some order3)
    (k6 : providerRefCollision db3 tx3.id (some rv.transactionID) = false) :
    ((mpesaCallbackHandlerRun db (some b) false).1.orders = db.orders
      ∧ (txById (mpesaCallbackHandlerRun db (some b) false).1 tx.id).map
          Transaction.status = some TransactionStatus.failed)
    ∧ ((findOrderById (handleB2CResult db2 (some r)) tx2.order_id).map
          Order.status = some OrderStatus.delivered
      ∧ (txById (handleB2CResult db2 (some r)) tx2.id).map
          Transaction.status = some TransactionStatus.failed)
    ∧ ((findOrderById (handleReversalResult db3 (some rv)) tx3.order_id).map
          Order.status = some OrderStatus.refund_failed
      ∧ (txById (handleReversalResult db3 (some rv)) tx3.id).map
          Transaction.status = some TransactionStatus.failed) := by
  obtain ⟨o, ho⟩ := Option.isSome_iff_exists.mp h3
  have hco : providerRefCollision db tx.id (some b.checkoutRequestId) = false :=
    providerRefCollision_self db tx b.checkoutRequestId "mpesa" h1
  refine ⟨⟨?_, ?_⟩, ⟨?_, ?_⟩, ⟨?_, ?_⟩⟩
  · simp only [mpesaCallbackHandlerRun, h1, h2, h4, ho, Bool.false_eq_true, if_false]
    exact updateTransactionDetails_orders db tx.id TransactionStatus.failed _
  · simp only [mpesaCallbackHandlerRun, h1, h2, h4, ho, Bool.false_eq_true, if_false]
    rw [txById_updateTransactionDetails db tx.id TransactionStatus.failed
      { description := some ("Failed/Cancelled. Desc: " ++ b.resultDesc),
        provider_ref := some b.checkoutRequestId,
        provider_status_code := none,
        provider_status_desc := none,
        provider_transaction_id := none } hco, h5]
    rfl
  · simp only [handleB2CResult, g1, g2, g3, Bool.false_eq_true, if_false]
    rw [findOrderById_updateOrderStatus, findOrderById_updateTransactionDetails, g5]
    rfl
  · simp only [handleB2CResult, g1, g2, g3, Bool.false_eq_true, if_false]
    rw [show ∀ dbx : DB, ∀ i st pf, txById (updateOrderStatus dbx i st pf).1 tx2.id
        = txById dbx tx2.id from fun _ _ _ _ => rfl]
    rw [txById_updateTransactionDetails db2 tx2.id TransactionStatus.failed
      { description := some ("Payout failed. Reason: " ++ r.resultDesc),
        provider_ref := none, provider_status_code := none,
        provider_status_desc := none, provider_transaction_id := none } rfl, g4]
    rfl
  · simp only [handleReversalResult, k1, k2, k3, Bool.false_eq_true, if_false]
    rw [findOrderById_updateOrderStatus, findOrderById_updateTransactionDetails, k5]
    rfl
  · simp only [handleReversalResult, k1, k2, k3, Bool.false_eq_true, if_false]
    rw [show ∀ dbx : DB, ∀ i st pf, txById (updateOrderStatus dbx i st pf).1 tx3.id
        = txById dbx tx3.id from fun _ _ _ _ => rfl]
    rw [txById_updateTransactionDetails db3 tx3.id TransactionStatus.failed
      { description := some ("Refund failed (Reversal). Reason: " ++ rv.resultDesc),
        provider_ref := some rv.transactionID,
        provider_status_code := some (toString rv.resultCode),
        provider_status_desc := some rv.resultDesc,
        provider_transaction_id := none } k6, k4]
    rfl

/-- Witness for `failure_callback_order_effects` at the fixture store. -/
theorem failure_callback_order_effects_witness :
    ((mpesaCallbackHandlerRun (sampleDB OrderStatus.pending "mpesa"
        TransactionStatus.pending "mpesa" "CRQ1") (some (failureCb "CRQ1")) false).1.orders
        = (sampleDB OrderStatus.pending "mpesa" TransactionStatus.pending
            "mpesa" "CRQ1").orders
      ∧ (txById (mpesaCallbackHandlerRun (sampleDB OrderStatus.pending "mpesa"
          TransactionStatus.pending "mpesa" "CRQ1") (some (failureCb "CRQ1")) false).1 7).map
          Transaction.status = some TransactionStatus.failed)
    ∧ ((findOrderById (handleB2CResult (sampleDB OrderStatus.processing_payout "mpesa"
          TransactionStatus.pending "mpesa_b2c" "OCID1")
          (some { originatorConversationID := "OCID1", resultCode := 2,
                  resultDesc := "declined", transactionID := "TXA" })) 1).map
          Order.status = some OrderStatus.delivered
      ∧ (txById (handleB2CResult (sampleDB OrderStatus.processing_payout "mpesa"
          TransactionStatus.pending "mpesa_b2c" "OCID1")
          (some { originatorConversationID := "OCID1", resultCode := 2,
                  resultDesc := "declined", transactionID := "TXA" })) 7).map
          Transaction.status = some TransactionStatus.failed)
    ∧ ((findOrderById (handleReversalResult (sampleDB OrderStatus.processing_refund "mpesa"
          TransactionStatus.pending "mpesa_reversal" "OCID2")
          (some { originatorConversationID := "OCID2", resultCode := 3,
                  resultDesc := "declined", transactionID := "TXB" })) 1).map
          Order.status = some OrderStatus.refund_failed
      ∧ (txById (handleReversalResult (sampleDB OrderStatus.processing_refund "mpesa"
          TransactionStatus.pending "mpesa_reversal" "OCID2")
          (some { originatorConversationID := "OCID2", resultCode := 3,
                  resultDesc := "declined", transactionID := "TXB" })) 7).map
          Transaction.status = some TransactionStatus.failed) :=
  failure_callback_order_effects
    (sampleDB OrderStatus.pending "mpesa" TransactionStatus.pending "mpesa" "CRQ1")
    (failureCb "CRQ1")
    (sampleTx TransactionStatus.pending "mpesa" "CRQ1")
    (sampleDB OrderStatus.processing_payout "mpesa" TransactionStatus.pending
      "mpesa_b2c" "OCID1")
    { originatorConversationID := "OCID1", resultCode := 2,
      resultDesc := "declined", transactionID := "TXA" }
    (sampleTx TransactionStatus.pending "mpesa_b2c" "OCID1")
    (sampleOrder OrderStatus.processing_payout "mpesa")
    (sampleDB OrderStatus.processing_refund "mpesa" TransactionStatus.pending
      "mpesa_reversal" "OCID2")
    { originatorConversationID := "OCID2", resultCode := 3,
      resultDesc := "declined", transactionID := "TXB" }
    (sampleTx TransactionStatus.pending "mpesa_reversal" "OCID2")
    (sampleOrder OrderStatus.processing_refund "mpesa")
    (by decide) (by decide) (by decide) (by decide) (by decide)
    (by decide) (by decide) (by decide) (by decide) (by decide)
    (by decide) (by decide) (by decide) (by decide) (by decide) (by decide)

/-- C5 counterexample: the transaction update and the order transition are
two separate statements with no enclosing database transaction.  When the
order update fails after the transaction update committed, the run answers
500 and leaves the transaction finalized `success` while the order keeps its
old status `pending` — a partially applied reconciliation step. -/
theorem transaction_finalized_order_stale_cex :
    (txById (mpesaCallbackHandlerRun (sampleDB OrderStatus.pending "mpesa"
        TransactionStatus.pending "mpesa" "CRQ1") (some (successCb "CRQ1")) true).1 7).map
        Transaction.status = some TransactionStatus.success
    ∧ (findOrderById (mpesaCallbackHandlerRun (sampleDB OrderStatus.pending "mpesa"
        TransactionStatus.pending "mpesa" "CRQ1") (some (successCb "CRQ1")) true).1 1).map
        Order.status = some OrderStatus.pending
    ∧ (mpesaCallbackHandlerRun (sampleDB OrderStatus.pending "mpesa"
        TransactionStatus.pending "mpesa" "CRQ1") (some (successCb "CRQ1")) true).2 = 500 := by
  decide

/-- C5 (amended): in the callback handler the transaction update and the
order transition are persisted as two independent statements; a failure of
the order update after the transaction update has committed is only caught
and answered 500, leaving the transaction `success` and every order row
exactly as before — nothing is rolled back.  The last hypothesis states
that the receipt written into `provider_ref` is not already held by a
different row, so the transaction update itself commits. -/
theorem callback_persistence_not_atomic
    (db : DB) (b : StkCallbackBody) (tx : Transaction)
    (h1 : findTransactionByProviderRef db b.checkoutRequestId "mpesa" = some tx)
    (h2 : alreadyProcessed tx.status = false)
    (h3 : (findOrderById db tx.order_id).isSome = true)
    (h4 : (b.resultCode == 0) = true)
    (h5 : txById db tx.id = some tx)
    (h6 : providerRefCollision db tx.id b.mpesaReceiptNumber = false) :
    (txById (mpesaCallbackHandlerRun db (some b) true).1 tx.id).map
        Transaction.status = some TransactionStatus.success
    ∧ (mpesaCallbackHandlerRun db (some b) true).1.orders = db.orders
    ∧ (mpesaCallbackHandlerRun db (some b) true).2 = 500 := by
  obtain ⟨o, ho⟩ := Option.isSome_iff_exists.mp h3
  refine ⟨?_, ?_, ?_⟩
  · simp only [mpesaCallbackHandlerRun, h1, h2, h4, ho, Bool.false_eq_true, if_false,
      if_true]
    rw [txById_updateTransactionDetails db tx.id TransactionStatus.success
      { description := some ("Paid via " ++ toString b.phoneNumber ++ ". Receipt: "
          ++ toString b.mpesaReceiptNumber),
        provider_ref := b.mpesaReceiptNumber, provider_status_code := none,
        provider_status_desc := none, provider_transaction_id := none } h6, h5]
    rfl
  · simp only [mpesaCallbackHandlerRun, h1, h2, h4, ho, Bool.false_eq_true, if_false,
      if_true]
    exact updateTransactionDetails_orders db tx.id TransactionStatus.success _
  · simp only [mpesaCallbackHandlerRun, h1, h2, h4, ho]
    rfl

/-- Witness for `callback_persistence_not_atomic` at the fixture store. -/
theorem callback_persistence_not_atomic_witness :
    (txById (mpesaCallbackHandlerRun (sampleDB OrderStatus.pending "mpesa"
        TransactionStatus.processing "mpesa" "CRQ2") (some (successCb "CRQ2")) true).1 7).map
        Transaction.status = some TransactionStatus.success
    ∧ (mpesaCallbackHandlerRun (sampleDB OrderStatus.pending "mpesa"
        TransactionStatus.processing "mpesa" "CRQ2") (some (successCb "CRQ2")) true).1.orders
        = (sampleDB OrderStatus.pending "mpesa" TransactionStatus.processing
            "mpesa" "CRQ2").orders
    ∧ (mpesaCallbackHandlerRun (sampleDB OrderStatus.pending "mpesa"
        TransactionStatus.processing "mpesa" "CRQ2") (some (successCb "CRQ2")) true).2
        = 500 :=
  callback_persistence_not_atomic
    (sampleDB OrderStatus.pending "mpesa" TransactionStatus.processing "mpesa" "CRQ2")
    (successCb "CRQ2")
    (sampleTx TransactionStatus.processing "mpesa" "CRQ2")
    (by decide) (by decide) (by decide) (by decide) (by decide) (by decide)

/-- Shared helper: the collection callback handler acknowledges 200 and
changes nothing whenever every transaction matching the callback's
correlation reference is already in a short-circuited status (or none
matches at all). -/
theorem mpesaCallbackHandler_noop (db : DB) (b : StkCallbackBody)
    (h : ∀ t ∈ db.transactions,
        (t.provider_ref == some b.checkoutRequestId && t.provider == "mpesa") = true →
        alreadyProcessed t.status = true) :
    mpesaCallbackHandler db (some b) = (db, 200) := by
  simp only [mpesaCallbackHandler, mpesaCallbackHandlerRun]
  cases hf : findTransactionByProviderRef db b.checkoutRequestId "mpesa" with
  | none => rfl
  | some t =>
    have hmem : t ∈ db.transactions := List.mem_of_find?_eq_some hf
    have hp := List.find?_some hf
    have ht : alreadyProcessed t.status = true := h t hmem hp
    simp [ht]

/-- C4: delivering the same normalized success callback twice for the same
correlation reference is idempotent: the first delivery finalizes the one
matching transaction `success` and moves the order to `paid` without
changing the number of transactions, and the second delivery returns the
state and acknowledgment of the first unchanged.  The hypotheses are the
uniqueness of the correlation reference (the `UNIQUE` column constraint)
and the primary-key consistency of the matched row. -/
theorem success_callback_replay_idempotent
    (db : DB) (b : StkCallbackBody) (tx : Transaction) (order : Order)
    (h1 : findTransactionByProviderRef db b.checkoutRequestId "mpesa" = some tx)
    (h2 : tx.status = TransactionStatus.pending)
    (h3 : findOrderById db tx.order_id = some order)
    (h4 : (b.resultCode == 0) = true)
    (h5 : txById db tx.id = some tx)
    (h6 : ∀ t ∈ db.transactions, t.provider_ref = some b.checkoutRequestId → t = tx)
    (h7 : providerRefCollision db tx.id b.mpesaReceiptNumber = false) :
    (mpesaCallbackHandler db (some b)).2 = 200
    ∧ (txById (mpesaCallbackHandler db (some b)).1 tx.id).map Transaction.status
        = some TransactionStatus.success
    ∧ (findOrderById (mpesaCallbackHandler db (some b)).1 tx.order_id).map Order.status
        = some OrderStatus.paid
    ∧ (mpesaCallbackHandler db (some b)).1.transactions.length = db.transactions.length
    ∧ mpesaCallbackHandler (mpesaCallbackHandler db (some b)).1 (some b)
        = mpesaCallbackHandler db (some b) := by
  have h2' : alreadyProcessed tx.status = false := by rw [h2]; rfl
  have hred : mpesaCallbackHandler db (some b)
      = ((updateOrderStatus (updateTransactionDetails db tx.id TransactionStatus.success
          { description := some ("Paid via " ++ toString b.phoneNumber ++ ". Receipt: "
              ++ toString b.mpesaReceiptNumber),
            provider_ref := b.mpesaReceiptNumber, provider_status_code := none,
            provider_status_desc := none, provider_transaction_id := none }).1
          tx.order_id OrderStatus.paid none).1, 200) := by
    simp only [mpesaCallbackHandler, mpesaCallbackHandlerRun, h1, h2', h3, h4,
      Bool.false_eq_true, if_false, if_true]
  have hmap := updateTransactionDetails_transactions_no_collision db tx.id
    TransactionStatus.success
    { description := some ("Paid via " ++ toString b.phoneNumber ++ ". Receipt: "
        ++ toString b.mpesaReceiptNumber),
      provider_ref := b.mpesaReceiptNumber, provider_status_code := none,
      provider_status_desc := none, provider_transaction_id := none } h7
  refine ⟨?_, ?_, ?_, ?_, ?_⟩
  · rw [hred]
  · rw [hred]
    show (txById (updateTransactionDetails db tx.id _ _).1 tx.id).map _ = _
    rw [txById_updateTransactionDetails db tx.id TransactionStatus.success
      { description := some ("Paid via " ++ toString b.phoneNumber ++ ". Receipt: "
          ++ toString b.mpesaReceiptNumber),
        provider_ref := b.mpesaReceiptNumber, provider_status_code := none,
        provider_status_desc := none, provider_transaction_id := none } h7, h5]
    rfl
  · rw [hred]
    show (findOrderById (updateOrderStatus _ tx.order_id OrderStatus.paid none).1
        tx.order_id).map Order.status = _
    rw [findOrderById_updateOrderStatus, findOrderById_updateTransactionDetails, h3]
    rfl
  · rw [hred]
    show (updateTransactionDetails db tx.id TransactionStatus.success
        { description := some ("Paid via " ++ toString b.phoneNumber ++ ". Receipt: "
            ++ toString b.mpesaReceiptNumber),
          provider_ref := b.mpesaReceiptNumber, provider_status_code := none,
          provider_status_desc := none,
          provider_transaction_id := none }).1.transactions.length
      = db.transactions.length
    rw [hmap]
    exact List.length_map _ _
  · rw [hred]
    apply mpesaCallbackHandler_noop
    intro t htmem htp
    have htmem' : t ∈ (updateTransactionDetails db tx.id TransactionStatus.success
        { description := some ("Paid via " ++ toString b.phoneNumber ++ ". Receipt: "
            ++ toString b.mpesaReceiptNumber),
          provider_ref := b.mpesaReceiptNumber, provider_status_code := none,
          provider_status_desc := none,
          provider_transaction_id := none }).1.transactions := htmem
    rw [hmap] at htmem'
    obtain ⟨t0, ht0mem, ht0eq⟩ := List.mem_map.mp htmem'
    by_cases hid : (t0.id == tx.id) = true
    · rw [← ht0eq]
      rw [if_pos hid]
      rfl
    · have hts : t = t0 := by
        rw [← ht0eq, if_neg hid]
      have hpr : t.provider_ref = some b.checkoutRequestId := by
        have hand := (Bool.and_eq_true _ _).mp htp
        exact eq_of_beq hand.1
      have htx : t = tx := h6 t (by rw [hts]; exact ht0mem) hpr
      have ht0tx : t0 = tx := by rw [← hts]; exact htx
      exact absurd (by rw [ht0tx]; exact beq_self_eq_true tx.id) hid

/-- Witness for `success_callback_replay_idempotent` at the fixture store. -/
theorem success_callback_replay_idempotent_witness :
    (mpesaCallbackHandler (sampleDB OrderStatus.pending "mpesa" TransactionStatus.pending
        "mpesa" "CRQ1") (some (successCb "CRQ1"))).2 = 200
    ∧ (txById (mpesaCallbackHandler (sampleDB OrderStatus.pending "mpesa"
        TransactionStatus.pending "mpesa" "CRQ1") (some (successCb "CRQ1"))).1 7).map
        Transaction.status = some TransactionStatus.success
    ∧ (findOrderById (mpesaCallbackHandler (sampleDB OrderStatus.pending "mpesa"
        TransactionStatus.pending "mpesa" "CRQ1") (some (successCb "CRQ1"))).1 1).map
        Order.status = some OrderStatus.paid
    ∧ (mpesaCallbackHandler (sampleDB OrderStatus.pending "mpesa"
        TransactionStatus.pending "mpesa" "CRQ1") (some (successCb "CRQ1"))).1.transactions.length
        = (sampleDB OrderStatus.pending "mpesa" TransactionStatus.pending
            "mpesa" "CRQ1").transactions.length
    ∧ mpesaCallbackHandler (mpesaCallbackHandler (sampleDB OrderStatus.pending "mpesa"
        TransactionStatus.pending "mpesa" "CRQ1") (some (successCb "CRQ1"))).1
        (some (successCb "CRQ1"))
        = mpesaCallbackHandler (sampleDB OrderStatus.pending "mpesa"
            TransactionStatus.pending "mpesa" "CRQ1") (some (successCb "CRQ1")) :=
  success_callback_replay_idempotent
    (sampleDB OrderStatus.pending "mpesa" TransactionStatus.pending "mpesa" "CRQ1")
    (successCb "CRQ1")
    (sampleTx TransactionStatus.pending "mpesa" "CRQ1")
    (sampleOrder OrderStatus.pending "mpesa")
    (by decide) (by decide) (by decide) (by decide) (by decide) (by decide) (by decide)

/-- C6: the status query awaited by the timeout handler is the
`queryMpesaTransactionStatus` placeholder, which contacts no provider and
always resolves with result code -1; consequently every timed-out pending
collection transaction is marked `failed` and no order row changes — the
timeout path can never reach the `paid` state the callback path produces
for a successful payment. -/
theorem timeout_status_query_stub_marks_failed
    (db : DB) (ref : String) (tx : Transaction)
    (h1 : findTransactionByProviderRef db ref "mpesa" = some tx)
    (h2 : tx.status = TransactionStatus.pending)
    (h3 : txById db tx.id = some tx) :
    queryMpesaTransactionStatus.resultCode = -1
    ∧ (txById (mpesaTimeoutHandler db ref).1 tx.id).map Transaction.status
        = some TransactionStatus.failed
    ∧ (mpesaTimeoutHandler db ref).1.orders = db.orders
    ∧ (mpesaTimeoutHandler db ref).2 = 200 := by
  have hpending : (tx.status != TransactionStatus.pending) = false := by
    rw [h2]; rfl
  have hq : (queryMpesaTransactionStatus.resultCode == 0) = false := by decide
  have hco : providerRefCollision db tx.id (some ref) = false :=
    providerRefCollision_self db tx ref "mpesa" h1
  refine ⟨rfl, ?_, ?_, ?_⟩
  · simp only [mpesaTimeoutHandler, mpesaTimeoutHandlerWith, h1, hpending, hq,
      Bool.false_eq_true, if_false]
    rw [txById_updateTransactionDetails db tx.id TransactionStatus.failed
      { description := some ("Failed after timeout. Status Query Result: "
          ++ queryMpesaTransactionStatus.resultDesc),
        provider_ref := some ref, provider_status_code := none,
        provider_status_desc := none, provider_transaction_id := none } hco, h3]
    rfl
  · simp only [mpesaTimeoutHandler, mpesaTimeoutHandlerWith, h1, hpending, hq,
      Bool.false_eq_true, if_false]
    exact updateTransactionDetails_orders db tx.id TransactionStatus.failed _
  · simp only [mpesaTimeoutHandler, mpesaTimeoutHandlerWith, h1, hpending, hq,
      Bool.false_eq_true, if_false]

/-- Witness for `timeout_status_query_stub_marks_failed` at the fixture store. -/
theorem timeout_status_query_stub_marks_failed_witness :
    queryMpesaTransactionStatus.resultCode = -1
    ∧ (txById (mpesaTimeoutHandler (sampleDB OrderStatus.pending "mpesa"
        TransactionStatus.pending "mpesa" "CRQ1") "CRQ1").1 7).map Transaction.status
        = some TransactionStatus.failed
    ∧ (mpesaTimeoutHandler (sampleDB OrderStatus.pending "mpesa"
        TransactionStatus.pending "mpesa" "CRQ1") "CRQ1").1.orders
        = (sampleDB OrderStatus.pending "mpesa" TransactionStatus.pending
            "mpesa" "CRQ1").orders
    ∧ (mpesaTimeoutHandler (sampleDB OrderStatus.pending "mpesa"
        TransactionStatus.pending "mpesa" "CRQ1") "CRQ1").2 = 200 :=
  timeout_status_query_stub_marks_failed
    (sampleDB OrderStatus.pending "mpesa" TransactionStatus.pending "mpesa" "CRQ1")
    "CRQ1" (sampleTx TransactionStatus.pending "mpesa" "CRQ1")
    (by decide) (by decide) (by decide)

/-- Shared helper for the skipped-payout postconditions: once the admin
release run has been reduced to "append one skipped transaction, answer
422", the four observable facts follow. -/
theorem release_skip_post (db : DB) (adminId orderId : Nat) (order : Order)
    (prov : String) (res : ControllerResult)
    (h1 : findOrderById db orderId = some order)
    (h2 : order.status = OrderStatus.disputed)
    (hres : res = ⟨(createTransaction db
        { order_id := orderId, user_id := adminId, provider := prov,
          provider_ref := none, amount := order.amount,
          status := TransactionStatus.skipped,
          description := some "Admin resolved dispute: Release funds." }).1, 422, []⟩) :
    res.httpStatus = 422
    ∧ (findOrderById res.db orderId).map Order.status = some OrderStatus.disputed
    ∧ res.calls = []
    ∧ (∃ t : Transaction,
        res.db.transactions = db.transactions ++ [t]
        ∧ t.status = TransactionStatus.skipped
        ∧ t.order_id = orderId ∧ t.amount = order.amount) := by
  subst hres
  refine ⟨rfl, ?_, rfl, ⟨_, rfl, rfl, rfl, rfl⟩⟩
  show (findOrderById db orderId).map Order.status = _
  rw [h1]
  simp [h2]

/-- C7: an admin release request on a `disputed` order whose payment method
is not M-Pesa (the only payout adapter wired up) records a `skipped`
transaction for the order amount, leaves the order `disputed`, issues no
provider call, and answers 422 — never success. -/
theorem release_without_adapter_skipped_disputed
    (db : DB) (adminId orderId : Nat) (b2c : B2CInitOutcome)
    (order : Order) (seller : User) (ph : String)
    (h1 : findOrderById db orderId = some order)
    (h2 : order.status = OrderStatus.disputed)
    (h3 : findUserById db order.seller_id = some seller)
    (h4 : seller.phone_number = some ph)
    (h5 : (order.payment_method == "mpesa") = false) :
    (resolveDisputeReleaseFunds db adminId orderId b2c).httpStatus = 422
    ∧ (findOrderById (resolveDisputeReleaseFunds db adminId orderId b2c).db orderId).map
        Order.status = some OrderStatus.disputed
    ∧ (resolveDisputeReleaseFunds db adminId orderId b2c).calls = []
    ∧ (∃ t : Transaction,
        (resolveDisputeReleaseFunds db adminId orderId b2c).db.transactions
          = db.transactions ++ [t]
        ∧ t.status = TransactionStatus.skipped
        ∧ t.order_id = orderId ∧ t.amount = order.amount) := by
  have hdisp : (order.status != OrderStatus.disputed) = false := by rw [h2]; rfl
  cases ha : (order.payment_method == "airtel") with
  | true =>
    refine release_skip_post db adminId orderId order "airtel_payout" _ h1 h2 ?_
    simp only [resolveDisputeReleaseFunds, h1, hdisp, h3, h4, h5, ha,
      Option.some_bind, Option.map_some', Bool.false_eq_true, if_false, if_true]
  | false =>
    cases hb : (order.payment_method == "equity") with
    | true =>
      refine release_skip_post db adminId orderId order "equity_payout" _ h1 h2 ?_
      simp only [resolveDisputeReleaseFunds, h1, hdisp, h3, h4, h5, ha, hb,
        Option.some_bind, Option.map_some', Bool.false_eq_true, if_false, if_true]
    | false =>
      refine release_skip_post db adminId orderId order
        (order.payment_method ++ "_payout") _ h1 h2 ?_
      simp only [resolveDisputeReleaseFunds, h1, hdisp, h3, h4, h5, ha, hb,
        Option.some_bind, Option.map_some', Bool.false_eq_true, if_false, if_true]

/-- Witness for `release_without_adapter_skipped_disputed`: a disputed
Pesapal order (no payout adapter configured for that method). -/
theorem release_without_adapter_skipped_disputed_witness :
    (resolveDisputeReleaseFunds (sampleDB OrderStatus.disputed "pesapal"
        TransactionStatus.success "pesapal" "PSP1") 99 1
        (B2CInitOutcome.threw "not called")).httpStatus = 422
    ∧ (findOrderById (resolveDisputeReleaseFunds (sampleDB OrderStatus.disputed "pesapal"
        TransactionStatus.success "pesapal" "PSP1") 99 1
        (B2CInitOutcome.threw "not called")).db 1).map
        Order.status = some OrderStatus.disputed
    ∧ (resolveDisputeReleaseFunds (sampleDB OrderStatus.disputed "pesapal"
        TransactionStatus.success "pesapal" "PSP1") 99 1
        (B2CInitOutcome.threw "not called")).calls = []
    ∧ (∃ t : Transaction,
        (resolveDisputeReleaseFunds (sampleDB OrderStatus.disputed "pesapal"
          TransactionStatus.success "pesapal" "PSP1") 99 1
          (B2CInitOutcome.threw "not called")).db.transactions
          = (sampleDB OrderStatus.disputed "pesapal" TransactionStatus.success
              "pesapal" "PSP1").transactions ++ [t]
        ∧ t.status = TransactionStatus.skipped
        ∧ t.order_id = 1
        ∧ t.amount = (sampleOrder OrderStatus.disputed "pesapal").amount) :=
  release_without_adapter_skipped_disputed
    (sampleDB OrderStatus.disputed "pesapal" TransactionStatus.success "pesapal" "PSP1")
    99 1 (B2CInitOutcome.threw "not called")
    (sampleOrder OrderStatus.disputed "pesapal")
    { id := 20, email := "seller@example.com",
      phone_number := some "254700000002", role := "seller" }
    "254700000002"
    (by decide) (by decide) (by decide) (by decide) (by decide)

/-- C8: confirm-delivery by the buyer of a `shipped` order answers 200,
moves the order to `completed` and records a `success` `system` transaction
for the order amount — but issues no payout call: the call trace is empty,
fund release being an unimplemented stub in the source. -/
theorem confirm_delivery_completes_without_payout_call
    (db : DB) (uid orderId : Nat) (order : Order)
    (h1 : findOrderById db orderId = some order)
    (h2 : order.buyer_id = uid)
    (h3 : order.status = OrderStatus.shipped) :
    (confirmOrderDelivery db uid orderId).httpStatus = 200
    ∧ (findOrderById (confirmOrderDelivery db uid orderId).db orderId).map Order.status
        = some OrderStatus.completed
    ∧ (confirmOrderDelivery db uid orderId).calls = []
    ∧ (∃ t : Transaction,
        (confirmOrderDelivery db uid orderId).db.transactions = db.transactions ++ [t]
        ∧ t.provider = "system" ∧ t.status = TransactionStatus.success
        ∧ t.amount = order.amount) := by
  have hb : (order.buyer_id != uid) = false := by rw [h2]; simp
  have hs : (order.status != OrderStatus.shipped) = false := by rw [h3]; rfl
  have hret : (updateOrderStatus db orderId OrderStatus.completed none).2
      = some (ordStatusUpd OrderStatus.completed none order) := by
    rw [updateOrderStatus_ret, h1]
    rfl
  have hred : confirmOrderDelivery db uid orderId
      = ⟨(createTransaction (updateOrderStatus db orderId OrderStatus.completed none).1
          { order_id := orderId, user_id := uid, provider := "system",
            provider_ref := none, amount := order.amount,
            status := TransactionStatus.success,
            description :=
              some "Buyer confirmed delivery. Funds released/release initiated." }).1,
        200, []⟩ := by
    simp only [confirmOrderDelivery, h1, hb, hs, hret, Bool.false_eq_true, if_false]
  rw [hred]
  refine ⟨rfl, ?_, rfl, ?_⟩
  · show (findOrderById (updateOrderStatus db orderId OrderStatus.completed none).1
        orderId).map Order.status = _
    rw [findOrderById_updateOrderStatus, h1]
    rfl
  · refine Exists.intro
      { id := db.nextTxId, order_id := orderId, user_id := uid,
        provider := "system", provider_ref := none, amount := order.amount,
        status := TransactionStatus.success,
        description := some "Buyer confirmed delivery. Funds released/release initiated.",
        provider_status_code := none, provider_status_desc := none,
        provider_transaction_id := none }
      ⟨?_, rfl, rfl, rfl⟩
    show (updateOrderStatus db orderId OrderStatus.completed none).1.transactions ++ [_]
      = db.transactions ++ [_]
    rw [updateOrderStatus_transactions]
    rfl

/-- Witness for `confirm_delivery_completes_without_payout_call` at the
fixture store. -/
theorem confirm_delivery_completes_without_payout_call_witness :
    (confirmOrderDelivery (sampleDB OrderStatus.shipped "mpesa"
        TransactionStatus.success "mpesa" "CRQ1") 10 1).httpStatus = 200
    ∧ (findOrderById (confirmOrderDelivery (sampleDB OrderStatus.shipped "mpesa"
        TransactionStatus.success "mpesa" "CRQ1") 10 1).db 1).map Order.status
        = some OrderStatus.completed
    ∧ (confirmOrderDelivery (sampleDB OrderStatus.shipped "mpesa"
        TransactionStatus.success "mpesa" "CRQ1") 10 1).calls = []
    ∧ (∃ t : Transaction,
        (confirmOrderDelivery (sampleDB OrderStatus.shipped "mpesa"
          TransactionStatus.success "mpesa" "CRQ1") 10 1).db.transactions
          = (sampleDB OrderStatus.shipped "mpesa" TransactionStatus.success
              "mpesa" "CRQ1").transactions ++ [t]
        ∧ t.provider = "system" ∧ t.status = TransactionStatus.success
        ∧ t.amount = (sampleOrder OrderStatus.shipped "mpesa").amount) :=
  confirm_delivery_completes_without_payout_call
    (sampleDB OrderStatus.shipped "mpesa" TransactionStatus.success "mpesa" "CRQ1")
    10 1 (sampleOrder OrderStatus.shipped "mpesa")
    (by decide) (by decide) (by decide)

/-- C9: the request validation of `createNewOrder` checks the amount only
for JavaScript falsiness (`!amount`), so a negative amount passes every
check and an order with amount -5 is created and persisted (201), violating
the amount > 0 invariant the validation is supposed to enforce. -/
theorem negative_amount_order_created :
    ((-5 : Int) < 0)
    ∧ (createNewOrder emptyDB 10
        { sellerIdentifier := some "seller@example.com",
          item_description := some "widget",
          amount := some (-5),
          payment_method := some "mpesa" }
        (StkInitOutcome.ok "CRQ9")).httpStatus = 201
    ∧ (findOrderById (createNewOrder emptyDB 10
        { sellerIdentifier := some "seller@example.com",
          item_description := some "widget",
          amount := some (-5),
          payment_method := some "mpesa" }
        (StkInitOutcome.ok "CRQ9")).db 1).map Order.amount = some (-5) := by
  decide

end Orenpay
